import Mathlib

/-
Verification development for the Receipty extraction-validation-persistence
pipeline (src/receipty/models/receipt_models.py and
src/receipty/api/LLM_processor.py).

Python Decimal values are modelled as exact rationals: the code only adds,
subtracts, multiplies, compares and quantizes Decimal values, all of which
are exact decimal operations faithfully represented in the rationals.
-/

/- Status enum from receipt_models.py (class Status). -/
inductive Status where
  | PENDING
  | PROCESSING
  | PROCESSED
  | FAILED
deriving DecidableEq, Repr

/- The string value of each Status member, as in the Python str Enum. -/
def Status.value : Status → String
  | .PENDING => "pending"
  | .PROCESSING => "processing"
  | .PROCESSED => "processed"
  | .FAILED => "failed"

/- Categories enum from receipt_models.py (class Categories): the closed
expense-category taxonomy.  Constructor names are the Python member names;
the stored string values are the French labels from the source. -/
inductive Categories where
  | ALIMENTATION
  | LOISIRS
  | TRANSPORT
  | MAISON
  | VETEMENTS
  | SANTE
  | FACTURES
  | TECHNOLOGIE
  | AUTRE
deriving DecidableEq, Repr

/- The string value of each Categories member, exactly as in the source. -/
def Categories.value : Categories → String
  | .ALIMENTATION => "Alimentation"
  | .LOISIRS => "Loisirs"
  | .TRANSPORT => "Transport"
  | .MAISON => "Maison"
  | .VETEMENTS => "Vêtements"
  | .SANTE => "Santé"
  | .FACTURES => "Factures"
  | .TECHNOLOGIE => "Technologie"
  | .AUTRE => "Autre"

/- Iteration order of the Python Enum (declaration order). -/
def Categories.all : List Categories :=
  [.ALIMENTATION, .LOISIRS, .TRANSPORT, .MAISON, .VETEMENTS,
   .SANTE, .FACTURES, .TECHNOLOGIE, .AUTRE]

/- Coercion of a string to an enum member by value, as pydantic performs it
when validating the category field of an item: the lookup succeeds exactly
on the nine stored values. -/
def Categories.fromValue (s : String) : Option Categories :=
  if s = "Alimentation" then some .ALIMENTATION
  else if s = "Loisirs" then some .LOISIRS
  else if s = "Transport" then some .TRANSPORT
  else if s = "Maison" then some .MAISON
  else if s = "Vêtements" then some .VETEMENTS
  else if s = "Santé" then some .SANTE
  else if s = "Factures" then some .FACTURES
  else if s = "Technologie" then some .TECHNOLOGIE
  else if s = "Autre" then some .AUTRE
  else none

/- Calendar date (datetime.date); only construction and equality are used
by the modelled code paths. -/
structure Date where
  year : Nat
  month : Nat
  day : Nat
deriving DecidableEq, Repr

/- ItemData from receipt_models.py: one item extracted by the LLM.
Fields are exactly the pydantic fields: name, quantity (PositiveInt),
price (Decimal, described in the source as the price for a single unit),
category (defaulting to AUTRE).  The PositiveInt and ge=0 bounds are
constraints checked at validation time, not part of the carrier type. -/
structure ItemData where
  name : String
  quantity : Nat
  price : ℚ
  category : Categories
deriving DecidableEq, Repr

/- StructuredReceiptData from receipt_models.py: the structured record the
LLM must return. -/
structure StructuredReceiptData where
  merchant : String
  receipt_date : Date
  total_amount : ℚ
  items : List ItemData
deriving DecidableEq, Repr

/- The line amount of an item: the total for that line, which for the
code's item representation (per-unit price plus quantity) is
price times quantity — the summand of calculated_sum in
check_total_matches_items_sum. -/
def lineAmount (item : ItemData) : ℚ :=
  item.price * (item.quantity : ℚ)

/- The model validator check_total_matches_items_sum from
receipt_models.py: computes calculated_sum as the sum over the items of
price times quantity, and rejects when its absolute difference from
total_amount exceeds the tolerance Decimal 0.02.  The source formats the
offending amounts into the error message; the message is modelled
statically. -/
def check_total_matches_items_sum (d : StructuredReceiptData) :
    Except String StructuredReceiptData :=
  let calculated_sum : ℚ :=
    d.items.foldl (fun acc item => acc + item.price * (item.quantity : ℚ)) 0
  let tolerance : ℚ := 2 / 100
  if |calculated_sum - d.total_amount| > tolerance then
    Except.error
      ("Sum of item totals does not match the receipt total amount within tolerance.")
  else
    Except.ok d

/- Python str.strip with no arguments: remove leading and trailing
whitespace. -/
def stripChars (l : List Char) : List Char :=
  ((l.dropWhile Char.isWhitespace).reverse.dropWhile Char.isWhitespace).reverse

/- Python str.replace of the euro sign by the empty string: every
occurrence of the one-character pattern is removed. -/
def removeEuroSign (l : List Char) : List Char := l.filter (fun c => c ≠ '€')

/- Python str.replace of the pattern EUR by the empty string: occurrences
are removed scanning left to right, non-overlapping. -/
def removeEURText : List Char → List Char
  | 'E' :: 'U' :: 'R' :: rest => removeEURText rest
  | c :: rest => c :: removeEURText rest
  | [] => []

/- The cleaning step shared by both amount validators in
receipt_models.py: value.replace euro-sign, then replace EUR, then strip
surrounding whitespace. -/
def stripCurrencyAndSpace (s : String) : String :=
  ⟨stripChars (removeEURText (removeEuroSign s.toList))⟩

/- Optional leading sign of a Python Decimal numeric literal. -/
def parseSign : List Char → Int × List Char
  | '+' :: rest => (1, rest)
  | '-' :: rest => (-1, rest)
  | l => (1, l)

/- Split a Decimal literal at the first exponent marker e or E, if any. -/
def splitOnExp : List Char → List Char × Option (List Char)
  | [] => ([], none)
  | c :: rest =>
    if c = 'e' ∨ c = 'E' then ([], some rest)
    else
      let p := splitOnExp rest
      (c :: p.1, p.2)

/- Parse the mantissa of a Decimal literal: digits with at most one
decimal point and at least one digit; returns the digit value and the
number of fractional digits. -/
def parseMantissaAux : List Char → Bool → Nat → Nat → Bool → Option (Nat × Nat)
  | [], _, acc, fracLen, seenDigit =>
    if seenDigit then some (acc, fracLen) else none
  | c :: rest, seenDot, acc, fracLen, seenDigit =>
    if c.isDigit then
      parseMantissaAux rest seenDot (10 * acc + (c.toNat - 48))
        (if seenDot then fracLen + 1 else fracLen) true
    else if c = '.' then
      if seenDot then none else parseMantissaAux rest true acc fracLen seenDigit
    else none

def parseMantissa (l : List Char) : Option (Nat × Nat) :=
  parseMantissaAux l false 0 0 false

/- Nonempty digit run of an exponent part. -/
def expDigits : List Char → Option Nat
  | [] => none
  | l =>
    if l.all Char.isDigit then
      some (l.foldl (fun a c => 10 * a + (c.toNat - 48)) 0)
    else none

/- Exponent part of a Decimal literal: optional sign then digits. -/
def parseExponent : List Char → Option Int
  | '+' :: rest => (expDigits rest).map Int.ofNat
  | '-' :: rest => (expDigits rest).map (fun n => -(n : Int))
  | l => (expDigits l).map Int.ofNat

/- Decompose a Python Decimal finite numeric literal into sign, mantissa
digits, fractional length and exponent.  This models the grammar accepted
by the Decimal string constructor (which itself tolerates surrounding
whitespace) restricted to finite values; the special values NaN,
Infinity and literals with digit-group underscores are not modelled. -/
def parseDecimalParts (s : String) : Option (Int × Nat × Nat × Int) :=
  let l := stripChars s.toList
  let p1 := parseSign l
  let p2 := splitOnExp p1.2
  let expVal : Option Int :=
    match p2.2 with
    | none => some 0
    | some e => parseExponent e
  match parseMantissa p2.1, expVal with
  | some mv, some e => some (p1.1, mv.1, mv.2, e)
  | _, _ => none

/- The exact rational value denoted by a decomposed Decimal literal. -/
def ratOfParts (p : Int × Nat × Nat × Int) : ℚ :=
  (p.1 : ℚ) * (p.2.1 : ℚ) * (10 : ℚ) ^ (p.2.2.2 - (p.2.2.1 : Int))

/- The Python Decimal string constructor, as an exact rational. -/
def parseDecimal (s : String) : Option ℚ :=
  (parseDecimalParts s).map ratOfParts

/- Field validator price_must_be_decimal of ItemData (receipt_models.py,
string branch): clean the string, build a Decimal, and reject negative
values.  In the source the negative-value ValueError is raised inside the
try block, so the broad except rewrites it; both failure paths therefore
surface the same message. -/
def price_must_be_decimal (value : String) : Except String ℚ :=
  match parseDecimal (stripCurrencyAndSpace value) with
  | none => Except.error ("Unit price must be a valid number")
  | some dec_value =>
    if dec_value < 0 then Except.error ("Unit price must be a valid number")
    else Except.ok dec_value

/- Field validator total_amount_must_be_decimal of StructuredReceiptData
(receipt_models.py, string branch): identical cleaning, parsing and
negativity check, with the total-amount message. -/
def total_amount_must_be_decimal (value : String) : Except String ℚ :=
  match parseDecimal (stripCurrencyAndSpace value) with
  | none => Except.error ("Total amount must be a valid number")
  | some dec_value =>
    if dec_value < 0 then Except.error ("Total amount must be a valid number")
    else Except.ok dec_value

/- The category_list string built by _create_llm_prompt in
LLM_processor.py: the comma-joined values of the Categories enum. -/
def category_list : String :=
  ", ".intercalate (Categories.all.map Categories.value)

/- Literal text of the LLM prompt before the category-list insertion
point (LLM_processor.py, _create_llm_prompt f-string). -/
def promptHead : String :=
  "\n    You are an expert financial assistant for French receipts.\n    Your task is to extract information into a perfect JSON.\n\n    --- CRITICAL RULES ---\n    1.  **MERCHANT/DATE:** Extract \x27merchant\x27 and \x27receipt_date\x27 (YYYY-MM-DD).\n    2.  **TOTAL:** Extract the final, after-discount \x27TOTAL A PAYER\x27 as the \x27total_amount\x27.\n    3.  **ITEMS:** Extract all real items. For each item:\n        - Get \x27name\x27 (correct OCR errors, e.g., \x27Jarnbon\x27 -> \x27Jambon\x27).\n        - Get \x27quantity\x27 (must be 1 or more).\n        - Get \x27line_price\x27 (this MUST be the TOTAL PRICE for the line).\n    4.  **CATEGORIES:** Assign a \x27category\x27 from this list: ["

/- Literal text of the LLM prompt between the category list and the
receipt text. -/
def promptMiddle : String :=
  "].\n        - - Use your common sense and critical thinking to classify items. for example, Anything related to transport (e.g., fuel, train tickets, public transport) should be categorized as \x27Transport\x27.\n        - Do NOT default to \x27Autre\x27 unless an item is truly unclassifiable.\n    5. If two items have the same or similar name but different prices, DO NOT merge them — treat them as separate items.\n    6.  **IGNORE:** DO NOT extract discounts, promotions, or taxes as items.\n    7.  **SELF-CORRECTION:** The sum of all \x27line_price\x27 fields you extract for items MUST *approximately* match the \x27total_amount\x27 you extracted. If they don\x27t match, review the text again.\n\n    Receipt Text:\n    ---\n    "

/- Literal text of the LLM prompt after the receipt text. -/
def promptEnd : String :=
  "\n    ---\n    "

/- The Prompt Builder _create_llm_prompt from LLM_processor.py: renders
the receipt text and the joined category taxonomy into the instruction
string. -/
def _create_llm_prompt (receipt_text : String) : String :=
  promptHead ++ (category_list ++ (promptMiddle ++ (receipt_text ++ promptEnd)))

/- The nine category names as the specification document words them
(section 6, category taxonomy).  Modelled from the spec for comparison
with the taxonomy in the source. -/
def specCategoryNames : List String :=
  ["Food", "Leisure", "Transport", "Home", "Clothing", "Health",
   "Bills", "Technology", "Other"]

/- Python exception kinds distinguished by the modelled code paths. -/
inductive PyErr where
  | attributeError
  | indexError
  | typeError
  | apiError
deriving DecidableEq, Repr

/- One function invocation payload inside an OpenAI tool call:
tool_call.function.name and tool_call.function.arguments. -/
structure ToolFunction where
  name : String
  arguments : String
deriving DecidableEq, Repr

structure ToolCall where
  function : ToolFunction
deriving DecidableEq, Repr

/- The message of a chat completion choice; tool_calls is None when the
response contains no tool invocation. -/
structure ChatMessage where
  tool_calls : Option (List ToolCall)
deriving DecidableEq, Repr

structure Choice where
  message : ChatMessage
deriving DecidableEq, Repr

structure ChatResponse where
  choices : List Choice
deriving DecidableEq, Repr

/- The expected tool name in _call_llm_api. -/
def tool_name : String := "save_structured_receipt"

/- The expression response.choices[0].message.tool_calls[0] from
_call_llm_api: empty choices raises IndexError, tool_calls None raises
TypeError, an empty tool_calls list raises IndexError; all three are
raised inside the try block of _call_llm_api. -/
def firstToolCall (response : ChatResponse) : Except PyErr ToolCall :=
  match response.choices with
  | [] => Except.error PyErr.indexError
  | choice :: _ =>
    match choice.message.tool_calls with
    | none => Except.error PyErr.typeError
    | some [] => Except.error PyErr.indexError
    | some (tool_call :: _) => Except.ok tool_call

/- The Extraction Client _call_llm_api from LLM_processor.py.  The outcome
of the external chat.completions.create call is the explicit argument: an
exception from the service, or a response value.  Every exception raised
inside the try block (service error, missing choices, absent or empty
tool_calls) is caught and turned into None; a tool call whose name is not
tool_name also yields None; otherwise the raw JSON argument string of the
tool call is returned. -/
def _call_llm_api (outcome : Except PyErr ChatResponse) : Option String :=
  match outcome with
  | Except.error _ => none
  | Except.ok response =>
    match firstToolCall response with
    | Except.error _ => none
    | Except.ok tool_call =>
      if tool_call.function.name = tool_name then
        some (tool_call.function.arguments)
      else none

/- A concrete successful chat response carrying one correctly named tool
call. -/
def respOk : ChatResponse :=
  ⟨[⟨⟨some [⟨⟨"save_structured_receipt", "args0"⟩⟩]⟩⟩]⟩


/- A row of the receipts table as the pipeline sees it: status, the OCR
text, and the fields filled in by processing. -/
structure ReceiptRow where
  status : Status
  extracted_text : String
  merchant : Option String
  receipt_date : Option Date
  total_amount : Option ℚ
deriving DecidableEq, Repr

/- A row of the items table. -/
structure ItemRow where
  receipt_id : String
  name : String
  quantity : Nat
  price : ℚ
  category : Categories
deriving DecidableEq, Repr

/- The external store (supabase): receipts keyed by id, and item rows. -/
structure Store where
  receipts : List (String × ReceiptRow)
  items : List ItemRow
deriving DecidableEq, Repr

/- supabase.table receipts .update status .eq id: set the status of the
rows whose id matches. -/
def Store.updateStatus (st : Store) (receipt_id : String) (s : Status) : Store :=
  { st with
    receipts := st.receipts.map fun p =>
      if p.1 = receipt_id then (p.1, { p.2 with status := s }) else p }

/- Step 1 of _update_database: one update call writing merchant,
receipt_date, total_amount and status PROCESSED on the matching rows. -/
def Store.updateExtracted (st : Store) (receipt_id : String)
    (data : StructuredReceiptData) : Store :=
  { st with
    receipts := st.receipts.map fun p =>
      if p.1 = receipt_id then
        (p.1, { p.2 with
                merchant := some data.merchant
                receipt_date := some data.receipt_date
                total_amount := some data.total_amount
                status := Status.PROCESSED })
      else p }

/- supabase.table items .insert: append the prepared rows. -/
def Store.insertItems (st : Store) (rows : List ItemRow) : Store :=
  { st with items := st.items ++ rows }

/- The attribute access item.line_price in _update_database
(LLM_processor.py).  ItemData in receipt_models.py defines only the
fields name, quantity, price and category; a pydantic model raises
AttributeError for any attribute it does not define, so this access
raises on every item. -/
def ItemData.line_price (_ : ItemData) : Except PyErr ℚ :=
  Except.error PyErr.attributeError

/- Decimal.quantize with exponent 0.0001 and rounding ROUND_HALF_UP:
round to four decimal places with ties away from zero. -/
def quantizeHalfUp4 (q : ℚ) : ℚ :=
  if 0 ≤ q then (⌊q * 10000 + 1 / 2⌋ : ℚ) / 10000
  else -((⌊-q * 10000 + 1 / 2⌋ : ℚ) / 10000)

/- One iteration of the item-preparation loop of _update_database: read
item.line_price (which raises AttributeError, the schema field being
named price), divide by the quantity and quantize the unit price to four
decimal places half-up.  The division is modelled exactly in the
rationals; the Decimal context rounding of the quotient to 28 significant
digits is not modelled, that code being unreachable past the failing
attribute read. -/
def prepareItem (receipt_id : String) (item : ItemData) : Except PyErr ItemRow :=
  match ItemData.line_price item with
  | Except.error e => Except.error e
  | Except.ok lp =>
    let unit_price : ℚ := lp / (item.quantity : ℚ)
    Except.ok ⟨receipt_id, item.name, item.quantity, quantizeHalfUp4 unit_price,
               item.category⟩

/- The item-preparation loop of _update_database, building
items_to_insert; the first raised exception aborts the loop. -/
def prepareItems (receipt_id : String) : List ItemData → Except PyErr (List ItemRow)
  | [] => Except.ok []
  | item :: rest =>
    match prepareItem receipt_id item with
    | Except.error e => Except.error e
    | Except.ok row =>
      match prepareItems receipt_id rest with
      | Except.error e => Except.error e
      | Except.ok rows => Except.ok (row :: rows)

/- The Persistence Writer _update_database from LLM_processor.py.
Returns the updated store, the boolean result of the call, and the list
of status values the call writes to the receipt row (in order).  Step 1
updates the receipt fields and sets status PROCESSED; the item
preparation then raises AttributeError whenever items is nonempty, which
the broad except converts into the compensating status write FAILED and a
False return.  When the prepared list is empty, the insert is skipped and
the call succeeds.  The store update and insert calls themselves are
modelled as succeeding. -/
def _update_database (st : Store) (receipt_id : String)
    (data : StructuredReceiptData) : Store × Bool × List Status :=
  let st1 := Store.updateExtracted st receipt_id data
  match prepareItems receipt_id data.items with
  | Except.ok items_to_insert =>
    (if items_to_insert.isEmpty then st1 else Store.insertItems st1 items_to_insert,
     true, [Status.PROCESSED])
  | Except.error _ =>
    (Store.updateStatus st1 receipt_id Status.FAILED, false,
     [Status.PROCESSED, Status.FAILED])

/- Outcome of the extraction stage for one receipt, abstracting the
external LLM service and the pydantic JSON validation
_parse_and_validate_response: the API call returns None or an empty
string (apiFailure), it returns a payload that fails validation
(invalidResponse), or it returns a payload that validates to a
StructuredReceiptData value (validResponse). -/
inductive ExtractionOutcome where
  | apiFailure
  | invalidResponse
  | validResponse (data : StructuredReceiptData)
deriving DecidableEq, Repr

/- The per-receipt body of the loop in process_pending_receipts: claim
the receipt by writing PROCESSING, build the prompt, run the extraction
(outcome supplied by the environment, keyed by receipt id and prompt),
and on a validated payload run the Persistence Writer.  An apiFailure or
invalidResponse raises ValueError inside the try block, which the except
handler converts into a FAILED status write.  Returns the updated store,
the ordered status writes for this receipt, and whether the receipt
counted as successfully processed. -/
def processOneReceipt (env : String → String → ExtractionOutcome) (st : Store)
    (receipt_id : String) (extracted_text : String) :
    Store × List Status × Bool :=
  let st1 := Store.updateStatus st receipt_id Status.PROCESSING
  let prompt := _create_llm_prompt extracted_text
  match env receipt_id prompt with
  | ExtractionOutcome.apiFailure =>
    (Store.updateStatus st1 receipt_id Status.FAILED,
     [Status.PROCESSING, Status.FAILED], false)
  | ExtractionOutcome.invalidResponse =>
    (Store.updateStatus st1 receipt_id Status.FAILED,
     [Status.PROCESSING, Status.FAILED], false)
  | ExtractionOutcome.validResponse data =>
    let r := _update_database st1 receipt_id data
    (r.1, Status.PROCESSING :: r.2.2, r.2.1)

/- One fold step of the batch loop: run one receipt, record its id,
status-write trace and success flag, and bump processed_count on
success. -/
def batchStep (env : String → String → ExtractionOutcome)
    (acc : Store × List (String × List Status × Bool) × Nat)
    (p : String × ReceiptRow) :
    Store × List (String × List Status × Bool) × Nat :=
  let one := processOneReceipt env acc.1 p.1 p.2.extracted_text
  (one.1, acc.2.1 ++ [(p.1, one.2.1, one.2.2)],
   if one.2.2 then acc.2.2 + 1 else acc.2.2)

/- Result of one batch run: the final store, the per-receipt traces in
processing order, and the attempted and succeeded counts of the final
summary line. -/
structure BatchResult where
  store : Store
  logs : List (String × List Status × Bool)
  attempted : Nat
  succeeded : Nat
deriving DecidableEq, Repr

/- The Batch Orchestrator process_pending_receipts from LLM_processor.py.
The outcome of the initial select of pending receipts is the fetched
argument: an exception aborts the run before any receipt is touched; an
empty pending set also returns early.  Otherwise each fetched pending
receipt is driven through the pipeline in order, one at a time, and the
summary reports the fetched count and the number of successes. -/
def process_pending_receipts (env : String → String → ExtractionOutcome)
    (fetched : Except PyErr Unit) (st : Store) : BatchResult :=
  match fetched with
  | Except.error _ => ⟨st, [], 0, 0⟩
  | Except.ok _ =>
    let pending_receipts :=
      st.receipts.filter fun p => decide (p.2.status = Status.PENDING)
    if pending_receipts.isEmpty then ⟨st, [], 0, 0⟩
    else
      let r := pending_receipts.foldl (batchStep env)
        (st, ([] : List (String × List Status × Bool)), 0)
      ⟨r.1, r.2.1, pending_receipts.length, r.2.2⟩

/- The round-trip extraction of the spec's test battery: Carrefour,
2024-03-01, total 15.00, Lait quantity 2 at line amount 3.00 (unit price
3/2) and Pain quantity 1 at line amount 12.00.  The prices carried by the
schema's price field are the per-unit values, which is the reading under
which the record passes the reconciliation validator. -/
def carrefourItems : List ItemData :=
  [⟨"Lait", 2, 3 / 2, Categories.AUTRE⟩, ⟨"Pain", 1, 12, Categories.AUTRE⟩]

def carrefourData : StructuredReceiptData :=
  ⟨"Carrefour", ⟨2024, 3, 1⟩, 15, carrefourItems⟩

/- A freshly ingested receipt row awaiting processing. -/
def pendingRow (text : String) : ReceiptRow :=
  ⟨Status.PENDING, text, none, none, none⟩

def oneReceiptStore : Store :=
  ⟨[("r1", pendingRow ("ocr text 1"))], []⟩

def threeReceiptStore : Store :=
  ⟨[("r1", pendingRow ("ocr text 1")),
    ("r2", pendingRow ("ocr text 2")),
    ("r3", pendingRow ("ocr text 3"))], []⟩

/- Environment in which every extraction call returns the validated
Carrefour payload. -/
def envAllValid : String → String → ExtractionOutcome :=
  fun _ _ => ExtractionOutcome.validResponse carrefourData

/- Environment in which the extraction call for receipt r1 fails at the
service and the other receipts get the validated Carrefour payload. -/
def envFirstFails : String → String → ExtractionOutcome :=
  fun receipt_id _ =>
    if receipt_id = "r1" then ExtractionOutcome.apiFailure
    else ExtractionOutcome.validResponse carrefourData

/- The status transitions the claim allows.  Modelled from the spec
(section 4.7): pending to processing, processing to processed, processing
to failed, and nothing else. -/
def claimStatusTransition (a b : Status) : Bool :=
  match a, b with
  | Status.PENDING, Status.PROCESSING => true
  | Status.PROCESSING, Status.PROCESSED => true
  | Status.PROCESSING, Status.FAILED => true
  | _, _ => false

/- The amended transition relation: the claimed transitions plus the
compensating processed-to-failed write the Persistence Writer performs
when the item step fails after the field update (spec section 4.6). -/
def amendedStatusTransition (a b : Status) : Bool :=
  claimStatusTransition a b ||
    (match a, b with
     | Status.PROCESSED, Status.FAILED => true
     | _, _ => false)

/- The three per-receipt trace shapes the orchestrator can produce: an
extraction or validation failure, a fully successful persistence (empty
item list), or the persistence failure after the field update. -/
def receiptTraceShape (w : List Status) (ok : Bool) : Prop :=
  (w = [Status.PROCESSING, Status.FAILED] ∧ ok = false) ∨
  (w = [Status.PROCESSING, Status.PROCESSED] ∧ ok = true) ∨
  (w = [Status.PROCESSING, Status.PROCESSED, Status.FAILED] ∧ ok = false)


theorem foldl_add_lineAmount (l : List ItemData) (a : ℚ) :
    l.foldl (fun acc item => acc + item.price * (item.quantity : ℚ)) a
      = a + (l.map lineAmount).sum := by
  induction l generalizing a with
  | nil => simp
  | cons x xs ih =>
    simp [List.foldl_cons, ih, lineAmount]
    ring

/-- C1: acceptance by the Schema Validator / Reconciler requires that the
absolute difference between the sum of line amounts over all items and the
declared total_amount is at most 0.02; a difference of exactly 0.02 is
accepted and a difference of 0.021 is rejected. -/
theorem c1_reconciliation_tolerance :
    (∀ d : StructuredReceiptData,
        check_total_matches_items_sum d = Except.ok d ↔
          |(d.items.map lineAmount).sum - d.total_amount| ≤ 2 / 100) ∧
    check_total_matches_items_sum
        ⟨"M", ⟨2024, 1, 1⟩, 1002 / 100, [⟨"x", 1, 10, Categories.AUTRE⟩]⟩
      = Except.ok ⟨"M", ⟨2024, 1, 1⟩, 1002 / 100, [⟨"x", 1, 10, Categories.AUTRE⟩]⟩ ∧
    check_total_matches_items_sum
        ⟨"M", ⟨2024, 1, 1⟩, 10021 / 1000, [⟨"x", 1, 10, Categories.AUTRE⟩]⟩
      = Except.error
          ("Sum of item totals does not match the receipt total amount within tolerance.") := by
  refine ⟨fun d => ?_, ?_, ?_⟩
  · unfold check_total_matches_items_sum
    rw [foldl_add_lineAmount]
    simp only [zero_add]
    split
    · rename_i h
      constructor
      · intro hcontra
        exact absurd hcontra (by simp)
      · intro hle
        exact absurd h (not_lt.mpr hle)
    · rename_i h
      simp only [true_iff]
      exact not_lt.mp h
  · unfold check_total_matches_items_sum
    norm_num [lineAmount]
    intro h
    rw [abs_of_nonneg (by norm_num)] at h
    norm_num at h
  · unfold check_total_matches_items_sum
    norm_num [lineAmount]
    intro h
    rw [abs_of_nonneg (by norm_num)] at h
    norm_num at h

theorem amount_validator_ok_iff (msg : String) (s : String) (q : ℚ) :
    (match parseDecimal (stripCurrencyAndSpace s) with
      | none => Except.error msg
      | some dec_value =>
        if dec_value < 0 then Except.error msg else Except.ok dec_value)
      = Except.ok q ↔
    (parseDecimal (stripCurrencyAndSpace s) = some q ∧ 0 ≤ q) := by
  cases h : parseDecimal (stripCurrencyAndSpace s) with
  | none => simp
  | some d =>
    by_cases hd : d < 0
    · simp only [hd, if_true]
      constructor
      · intro hcontra
        exact absurd hcontra (by simp)
      · rintro ⟨hdq, hq⟩
        injection hdq with hdq
        subst hdq
        exact absurd hq (not_le.mpr hd)
    · simp only [hd, if_false]
      constructor
      · rintro ⟨rfl⟩
        exact ⟨rfl, not_lt.mp hd⟩
      · rintro ⟨hdq, _⟩
        injection hdq with hdq
        subst hdq
        rfl

/-- C8: every amount field arriving as a string is cleaned by removing the
currency symbols (euro sign and EUR) and surrounding whitespace, the
remainder is parsed as an exact decimal, and the extraction is rejected
when the value is negative or not a valid number; this holds for both the
item price validator and the total_amount validator, illustrated on
concrete inputs. -/
theorem c8_string_amount_coercion :
    (∀ s q, price_must_be_decimal s = Except.ok q ↔
        (parseDecimal (stripCurrencyAndSpace s) = some q ∧ 0 ≤ q)) ∧
    (∀ s q, total_amount_must_be_decimal s = Except.ok q ↔
        (parseDecimal (stripCurrencyAndSpace s) = some q ∧ 0 ≤ q)) ∧
    stripCurrencyAndSpace (" €12.50 ") = "12.50" ∧
    price_must_be_decimal ("€ 12.50") = Except.ok (25 / 2) ∧
    price_must_be_decimal ("-3.00") = Except.error ("Unit price must be a valid number") ∧
    total_amount_must_be_decimal ("abc") = Except.error ("Total amount must be a valid number") := by
  have h1250 : parseDecimal (stripCurrencyAndSpace ("€ 12.50")) = some (25 / 2) := by
    have hp : parseDecimalParts (stripCurrencyAndSpace ("€ 12.50")) = some (1, 1250, 2, 0) := by
      decide
    rw [parseDecimal, hp]
    simp [ratOfParts]
    norm_num
  have h300 : parseDecimal (stripCurrencyAndSpace ("-3.00")) = some (-3) := by
    have hp : parseDecimalParts (stripCurrencyAndSpace ("-3.00")) = some (-1, 300, 2, 0) := by
      decide
    rw [parseDecimal, hp]
    simp [ratOfParts]
    norm_num
  have habc : parseDecimal (stripCurrencyAndSpace ("abc")) = none := by
    have hp : parseDecimalParts (stripCurrencyAndSpace ("abc")) = none := by decide
    rw [parseDecimal, hp]
    rfl
  refine ⟨fun s q => amount_validator_ok_iff _ s q,
          fun s q => amount_validator_ok_iff _ s q, by decide, ?_, ?_, ?_⟩
  · rw [price_must_be_decimal, h1250]
    norm_num
  · rw [price_must_be_decimal, h300]
    norm_num
  · rw [total_amount_must_be_decimal, habc]

/-- C7: for every prompt outcome, the Extraction Client returns None
rather than propagating an exception when the service call errors, when
the response contains no tool invocation, or when the invoked tool is not
the expected one, and on success it returns the tool call's raw JSON
argument string. -/
theorem c7_extraction_client_failure_modes :
    (∀ e, _call_llm_api (Except.error e) = none) ∧
    (∀ response e, firstToolCall response = Except.error e →
        _call_llm_api (Except.ok response) = none) ∧
    (∀ response tool_call, firstToolCall response = Except.ok tool_call →
        tool_call.function.name ≠ tool_name →
        _call_llm_api (Except.ok response) = none) ∧
    (∀ response tool_call, firstToolCall response = Except.ok tool_call →
        tool_call.function.name = tool_name →
        _call_llm_api (Except.ok response) = some (tool_call.function.arguments)) := by
  refine ⟨fun e => rfl, ?_, ?_, ?_⟩
  · intro response e h
    simp only [_call_llm_api]
    rw [h]
  · intro response tool_call h hname
    simp only [_call_llm_api]
    rw [h]
    simp [hname]
  · intro response tool_call h hname
    simp only [_call_llm_api]
    rw [h]
    simp [hname]

/-- Witness for C7 at a concrete successful response. -/
theorem c7_extraction_client_failure_modes_witness :
    firstToolCall respOk = Except.ok ⟨⟨"save_structured_receipt", "args0"⟩⟩ ∧
    (ToolCall.mk ⟨"save_structured_receipt", "args0"⟩).function.name = tool_name ∧
    _call_llm_api (Except.ok respOk) = some ("args0") :=
  ⟨rfl, rfl,
    c7_extraction_client_failure_modes.2.2.2 respOk
      ⟨⟨"save_structured_receipt", "args0"⟩⟩ rfl rfl⟩

/-- C9 counterexample: the taxonomy referenced by the prompt builder and
the extraction schema stores the French labels, not the English names the
claim lists; the validation lookup rejects the name Food and accepts
Alimentation, which is not in the claimed nine-element set. -/
theorem c9_counterexample :
    Categories.all.map Categories.value ≠ specCategoryNames ∧
    Categories.fromValue ("Food") = none ∧
    Categories.fromValue ("Alimentation") = some Categories.ALIMENTATION ∧
    Categories.value Categories.ALIMENTATION ∉ specCategoryNames := by
  refine ⟨by decide, by decide, by decide, by decide⟩

/-- C9 amended: the category taxonomy referenced by both the prompt
builder and the extraction schema is exactly the closed nine-element set
with values Alimentation, Loisirs, Transport, Maison, Vêtements, Santé,
Factures, Technologie, Autre (the spec's Food, Leisure, Transport, Home,
Clothing, Health, Bills, Technology, Other rendered as the French labels
of the source), every category accepted by validation is a member of this
set, and the prompt embeds the full comma-joined list of these values. -/
theorem c9_taxonomy_amended :
    Categories.all.length = 9 ∧
    Categories.all.Nodup ∧
    (∀ c : Categories, c ∈ Categories.all) ∧
    (∀ s c, Categories.fromValue s = some c ↔ s = Categories.value c) ∧
    category_list =
      "Alimentation, Loisirs, Transport, Maison, Vêtements, Santé, Factures, Technologie, Autre" ∧
    (∀ t, ∃ a b, _create_llm_prompt t = a ++ (category_list ++ b)) := by
  refine ⟨by decide, by decide, fun c => by cases c <;> decide, ?_, by decide, ?_⟩
  · intro s c
    constructor
    · intro h
      unfold Categories.fromValue at h
      split_ifs at h <;> (injection h with he; subst he; assumption)
    · intro h
      subst h
      cases c <;> decide
  · intro t
    exact ⟨promptHead, promptMiddle ++ (t ++ promptEnd), rfl⟩

/-- C4 (code bug evidence): the Price Normalizer never computes a unit
price: preparing any item raises AttributeError, because _update_database
reads item.line_price while the schema names the field price, so the
claimed exact-decimal division and half-up rounding are never reached. -/
theorem c4_price_normalizer_never_computes (receipt_id : String) (item : ItemData) :
    prepareItem receipt_id item = Except.error PyErr.attributeError := rfl

/-- C6: whenever the item step of the Persistence Writer fails after the
field update succeeded (which happens exactly when the item list is
nonempty), the merchant, date and total written in step (a) remain in the
store, the status is forced to FAILED by the compensating write, no item
row is inserted, and the writer reports failure. -/
theorem c6_compensating_write (st : Store) (receipt_id : String)
    (data : StructuredReceiptData) (hitems : data.items ≠ []) :
    (_update_database st receipt_id data).2.1 = false ∧
    (_update_database st receipt_id data).1.items = st.items ∧
    (_update_database st receipt_id data).2.2 = [Status.PROCESSED, Status.FAILED] ∧
    ∀ p ∈ (_update_database st receipt_id data).1.receipts, p.1 = receipt_id →
      p.2.merchant = some data.merchant ∧
      p.2.receipt_date = some data.receipt_date ∧
      p.2.total_amount = some data.total_amount ∧
      p.2.status = Status.FAILED := by
  have hprep : prepareItems receipt_id data.items = Except.error PyErr.attributeError := by
    cases h : data.items with
    | nil => exact absurd h hitems
    | cons i rest => rfl
  have hupd : _update_database st receipt_id data =
      (Store.updateStatus (Store.updateExtracted st receipt_id data) receipt_id
        Status.FAILED,
       false, [Status.PROCESSED, Status.FAILED]) := by
    unfold _update_database
    rw [hprep]
  rw [hupd]
  refine ⟨rfl, rfl, rfl, ?_⟩
  intro p hp hpid
  simp only [Store.updateStatus, Store.updateExtracted, List.map_map, List.mem_map,
    Function.comp] at hp
  obtain ⟨q, hq, rfl⟩ := hp
  by_cases hqid : q.1 = receipt_id
  · simp [hqid]
  · simp only [if_neg hqid] at hpid ⊢
    exact absurd hpid hqid

/-- Witness for C6 at the Carrefour payload and a one-receipt store. -/
theorem c6_compensating_write_witness :
    carrefourData.items ≠ [] ∧
    ((_update_database oneReceiptStore "r1" carrefourData).2.1 = false ∧
     (_update_database oneReceiptStore "r1" carrefourData).1.items =
       oneReceiptStore.items ∧
     (_update_database oneReceiptStore "r1" carrefourData).2.2 =
       [Status.PROCESSED, Status.FAILED] ∧
     ∀ p ∈ (_update_database oneReceiptStore "r1" carrefourData).1.receipts,
       p.1 = "r1" →
       p.2.merchant = some carrefourData.merchant ∧
       p.2.receipt_date = some carrefourData.receipt_date ∧
       p.2.total_amount = some carrefourData.total_amount ∧
       p.2.status = Status.FAILED) :=
  ⟨by simp [carrefourData, carrefourItems],
   c6_compensating_write oneReceiptStore "r1" carrefourData
     (by simp [carrefourData, carrefourItems])⟩

/-- C5 (code bug evidence): the Carrefour extraction passes the
reconciliation validator, yet processing the pending receipt leaves the
receipt FAILED with no item rows and a summary success count of zero,
because the Persistence Writer crashes on item.line_price; the claimed
outcome (status processed, items at 1.50 and 12.00) never happens. -/
theorem c5_carrefour_roundtrip_code_bug :
    check_total_matches_items_sum carrefourData = Except.ok carrefourData ∧
    (process_pending_receipts envAllValid (Except.ok ()) oneReceiptStore).store.receipts =
      [("r1", ⟨Status.FAILED, "ocr text 1", some ("Carrefour"), some ⟨2024, 3, 1⟩,
               some 15⟩)] ∧
    (process_pending_receipts envAllValid (Except.ok ()) oneReceiptStore).store.items =
      [] ∧
    (process_pending_receipts envAllValid (Except.ok ()) oneReceiptStore).succeeded = 0 := by
  refine ⟨?_, rfl, rfl, rfl⟩
  unfold check_total_matches_items_sum carrefourData carrefourItems
  norm_num

/-- C3 (code bug evidence): in a batch of three where the extraction call
fails for the first receipt, the other two are still driven through the
pipeline (the batch is not aborted) and a fetch failure aborts the run
with no status touched; but the summary reports succeeded equal to zero,
not two, because persistence fails on every receipt with items. -/
theorem c3_batch_isolation_summary :
    (process_pending_receipts envFirstFails (Except.ok ()) threeReceiptStore).attempted
      = 3 ∧
    (process_pending_receipts envFirstFails (Except.ok ()) threeReceiptStore).succeeded
      = 0 ∧
    (process_pending_receipts envFirstFails (Except.ok ()) threeReceiptStore).logs.map
        (fun e => (e.1, e.2.1)) =
      [("r1", [Status.PROCESSING, Status.FAILED]),
       ("r2", [Status.PROCESSING, Status.PROCESSED, Status.FAILED]),
       ("r3", [Status.PROCESSING, Status.PROCESSED, Status.FAILED])] ∧
    process_pending_receipts envFirstFails (Except.error PyErr.apiError)
        threeReceiptStore =
      ⟨threeReceiptStore, [], 0, 0⟩ :=
  ⟨rfl, rfl, rfl, rfl⟩

/-- C2 counterexample: a run on a single pending receipt whose extraction
validates writes the status sequence processing, processed, failed for
that receipt, and the transition from processed to failed is not among
the transitions the claim allows, so a transition outside
pending to processing to processed or failed does occur. -/
theorem c2_counterexample_processed_to_failed :
    (process_pending_receipts envAllValid (Except.ok ()) oneReceiptStore).logs.map
        (fun e => e.2.1) =
      [[Status.PROCESSING, Status.PROCESSED, Status.FAILED]] ∧
    ¬ List.Chain' (fun a b => claimStatusTransition a b = true)
        (Status.PENDING ::
          [Status.PROCESSING, Status.PROCESSED, Status.FAILED]) :=
  ⟨rfl, by simp [List.chain'_cons, claimStatusTransition]⟩

theorem processOneReceipt_shape (env : String → String → ExtractionOutcome)
    (st : Store) (receipt_id extracted_text : String) :
    receiptTraceShape (processOneReceipt env st receipt_id extracted_text).2.1
      (processOneReceipt env st receipt_id extracted_text).2.2 := by
  simp only [processOneReceipt]
  cases env receipt_id (_create_llm_prompt extracted_text) with
  | apiFailure => exact Or.inl ⟨rfl, rfl⟩
  | invalidResponse => exact Or.inl ⟨rfl, rfl⟩
  | validResponse data =>
    simp only [_update_database]
    cases prepareItems receipt_id data.items with
    | ok rows => exact Or.inr (Or.inl ⟨rfl, rfl⟩)
    | error e => exact Or.inr (Or.inr ⟨rfl, rfl⟩)

theorem foldl_batchStep_shape (env : String → String → ExtractionOutcome) :
    ∀ (l : List (String × ReceiptRow))
      (acc : Store × List (String × List Status × Bool) × Nat),
      (∀ e ∈ acc.2.1, receiptTraceShape e.2.1 e.2.2) →
      ∀ e ∈ (l.foldl (batchStep env) acc).2.1, receiptTraceShape e.2.1 e.2.2 := by
  intro l
  induction l with
  | nil => intro acc hacc e he; exact hacc e he
  | cons p rest ih =>
    intro acc hacc e he
    rw [List.foldl_cons] at he
    refine ih (batchStep env acc p) ?_ e he
    intro f hf
    simp only [batchStep, List.mem_append, List.mem_singleton] at hf
    cases hf with
    | inl h => exact hacc f h
    | inr h =>
      subst h
      exact processOneReceipt_shape env acc.1 p.1 p.2.extracted_text

theorem foldl_batchStep_count (env : String → String → ExtractionOutcome) :
    ∀ (l : List (String × ReceiptRow))
      (acc : Store × List (String × List Status × Bool) × Nat),
      (l.foldl (batchStep env) acc).2.2 ≤ acc.2.2 + l.length := by
  intro l
  induction l with
  | nil => intro acc; simp
  | cons p rest ih =>
    intro acc
    rw [List.foldl_cons]
    have hstep : (batchStep env acc p).2.2 ≤ acc.2.2 + 1 := by
      simp only [batchStep]
      split <;> omega
    have hrest := ih (batchStep env acc p)
    simp only [List.length_cons]
    omega

/-- C2 amended: every receipt trace of a batch run starts from PENDING,
has PROCESSING written first (before any pipeline stage), moves only
along pending to processing to processed or failed, extended by the
Persistence Writer compensating transition processed to failed when the
item step fails after the field update; a failed receipt ends at FAILED
and a fully successful one ends at PROCESSED. -/
theorem c2_amended_status_transitions (env : String → String → ExtractionOutcome)
    (fetched : Except PyErr Unit) (st : Store) :
    ∀ e ∈ (process_pending_receipts env fetched st).logs,
      e.2.1.head? = some Status.PROCESSING ∧
      List.Chain' (fun a b => amendedStatusTransition a b = true)
        (Status.PENDING :: e.2.1) ∧
      e.2.1.getLast? =
        some (if e.2.2 then Status.PROCESSED else Status.FAILED) := by
  intro e he
  have hshape : receiptTraceShape e.2.1 e.2.2 := by
    cases fetched with
    | error err => simp [process_pending_receipts] at he
    | ok u =>
      simp only [process_pending_receipts] at he
      split at he
      · simp at he
      · exact foldl_batchStep_shape env _ (st, [], 0)
          (by intro f hf; simp at hf) e he
  rcases hshape with ⟨hw, hok⟩ | ⟨hw, hok⟩ | ⟨hw, hok⟩ <;> rw [hw, hok] <;>
    exact ⟨rfl,
      by simp [List.chain'_cons, amendedStatusTransition, claimStatusTransition],
      rfl⟩

/-- Witness for the amended C2 at the one-receipt run with a validated
extraction. -/
theorem c2_amended_status_transitions_witness :
    (("r1", [Status.PROCESSING, Status.PROCESSED, Status.FAILED], false) ∈
        (process_pending_receipts envAllValid (Except.ok ()) oneReceiptStore).logs) ∧
    ((("r1", [Status.PROCESSING, Status.PROCESSED, Status.FAILED],
        false) : String × List Status × Bool).2.1.head? = some Status.PROCESSING ∧
      List.Chain' (fun a b => amendedStatusTransition a b = true)
        (Status.PENDING ::
          (("r1", [Status.PROCESSING, Status.PROCESSED, Status.FAILED],
            false) : String × List Status × Bool).2.1) ∧
      (("r1", [Status.PROCESSING, Status.PROCESSED, Status.FAILED],
        false) : String × List Status × Bool).2.1.getLast? =
        some (if (("r1", [Status.PROCESSING, Status.PROCESSED, Status.FAILED],
          false) : String × List Status × Bool).2.2 then Status.PROCESSED
          else Status.FAILED)) :=
  have hmem : ("r1", [Status.PROCESSING, Status.PROCESSED, Status.FAILED], false) ∈
      (process_pending_receipts envAllValid (Except.ok ()) oneReceiptStore).logs :=
    List.mem_singleton.mpr rfl
  ⟨hmem, c2_amended_status_transitions envAllValid (Except.ok ()) oneReceiptStore
    ("r1", [Status.PROCESSING, Status.PROCESSED, Status.FAILED], false) hmem⟩

/-- C10: for every batch run, the succeeded count of the final summary
never exceeds the attempted count (the number of receipts fetched at
batch start), since each fetched receipt bumps the counter at most
once. -/
theorem c10_succeeded_le_attempted (env : String → String → ExtractionOutcome)
    (fetched : Except PyErr Unit) (st : Store) :
    (process_pending_receipts env fetched st).succeeded ≤
      (process_pending_receipts env fetched st).attempted := by
  cases fetched with
  | error err => exact Nat.le_refl 0
  | ok u =>
    simp only [process_pending_receipts]
    split
    · exact Nat.le_refl 0
    · have hcount := foldl_batchStep_count env
        (st.receipts.filter fun p => decide (p.2.status = Status.PENDING))
        (st, [], 0)
      simpa using hcount
